import Mathlib

/-!
Verification of the RevenueRadar hybrid lead-scoring engine.

The frontend TypeScript (api.ts, App.tsx, ResultsTable.tsx) and the README
are embedded directly from the source.  The Python backend (normalizer,
rule-based scorer, AI adjustment client, aggregator, batch orchestrator)
is not part of the available sources; those components are modelled from
the specification, and each such definition carries a doc comment saying
so.  Scores are rationals, final scores are integers.
-/

namespace RevenueRadar

/-- Clamp a rational into the closed interval from lo to hi. -/
def clampQ (lo hi x : ℚ) : ℚ := max lo (min hi x)

/-- Clamp an integer into the closed interval from lo to hi. -/
def clampI (lo hi n : ℤ) : ℤ := max lo (min hi n)

/-- Round a rational to the nearest integer (half rounds up). -/
def roundQ (x : ℚ) : ℤ := ⌊x + 1/2⌋

theorem clampQ_le (lo hi x : ℚ) (h : lo ≤ hi) : clampQ lo hi x ≤ hi := by
  unfold clampQ
  exact max_le h (min_le_left _ _)

theorem le_clampQ (lo hi x : ℚ) : lo ≤ clampQ lo hi x := le_max_left _ _

theorem clampI_le (lo hi n : ℤ) (h : lo ≤ hi) : clampI lo hi n ≤ hi := by
  unfold clampI
  exact max_le h (min_le_left _ _)

theorem le_clampI (lo hi n : ℤ) : lo ≤ clampI lo hi n := le_max_left _ _

theorem clampI_eq_self (lo hi n : ℤ) (h1 : lo ≤ n) (h2 : n ≤ hi) :
    clampI lo hi n = n := by
  unfold clampI
  omega

/-- Tier label of a final score, embedded from getScoreLabel in
ResultsTable.tsx: 80 and above is Hot, 60 to 79 Warm, 40 to 59 Cold,
below 40 Ice Cold. -/
def getScoreLabel (score : ℚ) : String :=
  if 80 ≤ score then "Hot"
  else if 60 ≤ score then "Warm"
  else if 40 ≤ score then "Cold"
  else "Ice Cold"

/-- Numeric rank of a tier label, used to state monotonicity of the
classification. -/
def tierRank (label : String) : ℕ :=
  if label = "Hot" then 3
  else if label = "Warm" then 2
  else if label = "Cold" then 1
  else 0

theorem tierRank_getScoreLabel (s : ℚ) :
    tierRank (getScoreLabel s) =
      if 80 ≤ s then 3 else if 60 ≤ s then 2 else if 40 ≤ s then 1 else 0 := by
  unfold getScoreLabel
  split_ifs <;> rfl

/-- C1: Tier classification is a pure, deterministic, monotonic step
function of the final score alone, with inclusive lower bounds: a score
of at least 80 yields Hot, at least 60 and below 80 yields Warm, at
least 40 and below 60 yields Cold, and below 40 yields Ice Cold; and the
classification is monotone in the score. -/
theorem tier_classification (s t : ℚ) :
    (80 ≤ s → getScoreLabel s = "Hot") ∧
    (60 ≤ s → s < 80 → getScoreLabel s = "Warm") ∧
    (40 ≤ s → s < 60 → getScoreLabel s = "Cold") ∧
    (s < 40 → getScoreLabel s = "Ice Cold") ∧
    (s ≤ t → tierRank (getScoreLabel s) ≤ tierRank (getScoreLabel t)) := by
  refine ⟨?_, ?_, ?_, ?_, ?_⟩
  · intro h; simp [getScoreLabel, h]
  · intro h1 h2
    simp [getScoreLabel, h1, not_le.mpr h2]
  · intro h1 h2
    have h3 : ¬ (80 : ℚ) ≤ s := by linarith
    have h4 : ¬ (60 : ℚ) ≤ s := by linarith
    simp [getScoreLabel, h1, h3, h4]
  · intro h
    have h3 : ¬ (80 : ℚ) ≤ s := by linarith
    have h4 : ¬ (60 : ℚ) ≤ s := by linarith
    have h5 : ¬ (40 : ℚ) ≤ s := by linarith
    simp [getScoreLabel, h3, h4, h5]
  · intro hst
    rw [tierRank_getScoreLabel, tierRank_getScoreLabel]
    split_ifs <;> first | rfl | omega | linarith

/-- Witness for C1 at concrete scores 85, 70, 45 and 10. -/
theorem tier_classification_witness :
    getScoreLabel 85 = "Hot" ∧ getScoreLabel 70 = "Warm" ∧
    getScoreLabel 45 = "Cold" ∧ getScoreLabel 10 = "Ice Cold" ∧
    tierRank (getScoreLabel 45) ≤ tierRank (getScoreLabel 85) :=
  ⟨(tier_classification 85 85).1 (by norm_num),
   (tier_classification 70 70).2.1 (by norm_num) (by norm_num),
   (tier_classification 45 45).2.2.1 (by norm_num) (by norm_num),
   (tier_classification 10 10).2.2.2.1 (by norm_num),
   (tier_classification 45 85).2.2.2.2 (by norm_num)⟩

/-- Modelled from the spec: an untyped cell value of a raw input row.
The backend that parses rows is not among the available sources; the spec
describes a RawRow as a mapping of column name to untyped value that may
be incomplete or malformed. -/
inductive Value where
  | vstr (s : String)
  | vnum (q : ℚ)
  | vbool (b : Bool)
deriving DecidableEq, Repr

/-- Modelled from the spec: one raw input record, one optional untyped
cell per ingestion-schema column; no invariants. -/
structure RawRow where
  company_name : Option Value := none
  industry : Option Value := none
  country : Option Value := none
  city : Option Value := none
  employee_count : Option Value := none
  annual_revenue_usd : Option Value := none
  contact_name : Option Value := none
  contact_email : Option Value := none
  job_title : Option Value := none
  decision_authority : Option Value := none
  lead_source : Option Value := none
  budget_range : Option Value := none
  purchase_timeline : Option Value := none
  website_visits : Option Value := none
  emails_opened : Option Value := none
  content_downloads : Option Value := none
  demo_requested : Option Value := none
  free_trial_signup : Option Value := none
  current_solution : Option Value := none
  pain_points : Option Value := none
deriving DecidableEq, Repr

/-- Canonical, validated lead record.  Field list embedded from the
LeadData interface in api.ts; typing constraints (non-negative integers
and numbers, enum defaults) are from section 3 of the spec. -/
structure CanonicalLead where
  company_name : String
  industry : String
  country : String
  city : String
  employee_count : ℕ
  annual_revenue_usd : ℚ
  contact_name : String
  contact_email : String
  job_title : String
  decision_authority : String
  lead_source : String
  budget_range : String
  purchase_timeline : String
  website_visits : ℕ
  emails_opened : ℕ
  content_downloads : ℕ
  demo_requested : Bool
  free_trial_signup : Bool
  current_solution : String
  pain_points : String
deriving DecidableEq, Repr

/-- Modelled from the spec: whitespace trim of a string, written over
the character list so that it evaluates by reduction. -/
def trimStr (s : String) : String :=
  String.mk (((s.toList.dropWhile Char.isWhitespace).reverse.dropWhile
    Char.isWhitespace).reverse)

/-- Modelled from the spec: coercion of an untyped cell to a trimmed
string, defaulting to the empty string. -/
def coerceStr (v : Option Value) : String :=
  match v with
  | some (Value.vstr s) => trimStr s
  | _ => ""

/-- Modelled from the spec: coercion of an untyped cell to a
non-negative integer with numeric floor at zero, defaulting to 0. -/
def coerceNat (v : Option Value) : ℕ :=
  match v with
  | some (Value.vnum q) => if q < 0 then 0 else (⌊q⌋).toNat
  | _ => 0

/-- Modelled from the spec: coercion of an untyped cell to a
non-negative number with floor at zero, defaulting to 0. -/
def coerceNum (v : Option Value) : ℚ :=
  match v with
  | some (Value.vnum q) => max 0 q
  | _ => 0

/-- Modelled from the spec: coercion of an untyped cell to a boolean,
defaulting to false. -/
def coerceBool (v : Option Value) : Bool :=
  match v with
  | some (Value.vbool b) => b
  | _ => false

/-- Modelled from the spec: enum-membership check; unknown or absent
categorical values map to the safe default rather than failing the
row. -/
def coerceEnum (allowed : List String) (dflt : String) (v : Option Value) : String :=
  match v with
  | some (Value.vstr s) => if trimStr s ∈ allowed then trimStr s else dflt
  | _ => dflt

/-- Modelled from the spec: a structurally required identity field must
be a present, non-empty string; anything else counts as absent. -/
def requiredStr (v : Option Value) : Option String :=
  match v with
  | some (Value.vstr s) => if trimStr s = "" then none else some (trimStr s)
  | _ => none

/-- Fixed enum of decision-authority categories from the ingestion
schema in section 6 of the spec. -/
def authorityEnum : List String :=
  ["Final Decision Maker", "Key Influencer", "Evaluator", "End User"]

/-- Fixed enum of budget-range categories from the ingestion schema. -/
def budgetEnum : List String :=
  ["Under $10K", "$10K-$50K", "$50K-$100K", "$100K-$500K", "$500K-$1M", "Over $1M"]

/-- Fixed enum of purchase-timeline categories from the ingestion
schema; the last label is the lowest-urgency bucket. -/
def timelineEnum : List String :=
  ["Immediate", "Short-term", "Medium-term", "Long-term", "Just researching"]

/-- Modelled from the spec: the Lead Normalizer.  The backend
implementation is not among the available sources.  Each field uses an
explicit coercion rule; a row fails only when company name or contact
email is absent or empty. -/
def normalize (r : RawRow) : Option CanonicalLead :=
  match requiredStr r.company_name, requiredStr r.contact_email with
  | some name, some email =>
      some {
        company_name := name
        industry := coerceStr r.industry
        country := coerceStr r.country
        city := coerceStr r.city
        employee_count := coerceNat r.employee_count
        annual_revenue_usd := coerceNum r.annual_revenue_usd
        contact_name := coerceStr r.contact_name
        contact_email := email
        job_title := coerceStr r.job_title
        decision_authority := coerceEnum authorityEnum "Unknown" r.decision_authority
        lead_source := coerceStr r.lead_source
        budget_range := coerceEnum budgetEnum "Unknown" r.budget_range
        purchase_timeline := coerceEnum timelineEnum "Just researching" r.purchase_timeline
        website_visits := coerceNat r.website_visits
        emails_opened := coerceNat r.emails_opened
        content_downloads := coerceNat r.content_downloads
        demo_requested := coerceBool r.demo_requested
        free_trial_signup := coerceBool r.free_trial_signup
        current_solution := coerceStr r.current_solution
        pain_points := coerceStr r.pain_points }
  | _, _ => none

/-- Seven-factor score breakdown, embedded from the ScoreBreakdown
interface in api.ts. -/
structure ScoreBreakdown where
  company_size : ℚ
  engagement : ℚ
  budget_fit : ℚ
  decision_authority : ℚ
  timeline : ℚ
  data_quality : ℚ
  behavioral : ℚ
deriving DecidableEq, Repr

/-- Clamp into the score range zero to one hundred, the invariant every
sub-score carries per section 3 of the spec. -/
def clamp01 (x : ℚ) : ℚ := clampQ 0 100 x

theorem clamp01_nonneg (x : ℚ) : 0 ≤ clamp01 x := le_clampQ 0 100 x

theorem clamp01_le (x : ℚ) : clamp01 x ≤ 100 := clampQ_le 0 100 x (by norm_num)

/-- Modelled from the spec: employee-count bucket mapped through a fixed
monotone threshold table into the score range.  The spec leaves the
exact thresholds open; these concrete values follow its qualitative
description. -/
def employeeBucketScore (n : ℕ) : ℚ :=
  if 1000 ≤ n then 100
  else if 250 ≤ n then 80
  else if 50 ≤ n then 60
  else if 10 ≤ n then 40
  else 20

/-- Modelled from the spec: revenue bucket mapped through a fixed
monotone threshold table into the score range.  Concrete thresholds are
a choice the spec leaves open. -/
def revenueBucketScore (r : ℚ) : ℚ :=
  if 100000000 ≤ r then 100
  else if 10000000 ≤ r then 80
  else if 1000000 ≤ r then 60
  else if 100000 ≤ r then 40
  else 20

/-- Modelled from the spec: company-size sub-score, the average of the
employee-count bucket and the revenue bucket, clamped. -/
def companySizeScore (lead : CanonicalLead) : ℚ :=
  clamp01 ((employeeBucketScore lead.employee_count +
            revenueBucketScore lead.annual_revenue_usd) / 2)

/-- Modelled from the spec: engagement sub-score, a weighted combination
of visits, emails opened and content downloads, each individually capped
before combining, clamped. -/
def engagementScore (lead : CanonicalLead) : ℚ :=
  clamp01 (2 * min 20 (lead.website_visits : ℚ) +
           3 * min 10 (lead.emails_opened : ℚ) +
           5 * min 6 (lead.content_downloads : ℚ))

/-- Modelled from the spec: budget-fit sub-score, a categorical lookup
from the budget-range label to a fixed score, clamped. -/
def budgetFitScore (lead : CanonicalLead) : ℚ :=
  clamp01 (if lead.budget_range = "Over $1M" then 100
    else if lead.budget_range = "$500K-$1M" then 90
    else if lead.budget_range = "$100K-$500K" then 80
    else if lead.budget_range = "$50K-$100K" then 65
    else if lead.budget_range = "$10K-$50K" then 45
    else if lead.budget_range = "Under $10K" then 25
    else 10)

/-- Modelled from the spec: whether the keyword occurs inside the
title. -/
def hasKeyword (title keyword : String) : Bool :=
  (title.splitOn keyword).length != 1

/-- Modelled from the spec: decision-authority sub-score, a categorical
lookup from the authority enum refined by keyword heuristics over the
job title: Chief, VP or Director raises the baseline for ambiguous
titles, clamped. -/
def decisionAuthorityScore (lead : CanonicalLead) : ℚ :=
  let base : ℚ :=
    if lead.decision_authority = "Final Decision Maker" then 100
    else if lead.decision_authority = "Key Influencer" then 75
    else if lead.decision_authority = "Evaluator" then 50
    else if lead.decision_authority = "End User" then 25
    else 30
  let refined : ℚ :=
    if hasKeyword lead.job_title "Chief" || hasKeyword lead.job_title "VP" ||
       hasKeyword lead.job_title "Director" then max base 70 else base
  clamp01 refined

/-- Modelled from the spec: timeline sub-score, a categorical lookup
from the purchase-timeline enum with the most urgent label scoring
highest, clamped. -/
def timelineScore (lead : CanonicalLead) : ℚ :=
  clamp01 (if lead.purchase_timeline = "Immediate" then 100
    else if lead.purchase_timeline = "Short-term" then 80
    else if lead.purchase_timeline = "Medium-term" then 55
    else if lead.purchase_timeline = "Long-term" then 30
    else 10)

/-- Modelled from the spec: data-quality sub-score, the fraction of
required fields present and well-typed, scaled to the score range,
clamped. -/
def dataQualityScore (lead : CanonicalLead) : ℚ :=
  let checks : List Bool :=
    [lead.industry ≠ "", lead.country ≠ "", lead.city ≠ "",
     lead.contact_name ≠ "", lead.job_title ≠ "",
     lead.decision_authority ≠ "Unknown", decide (0 < lead.employee_count),
     decide ((0 : ℚ) < lead.annual_revenue_usd),
     lead.budget_range ≠ "Unknown", lead.lead_source ≠ ""]
  clamp01 ((checks.countP id : ℚ) / (checks.length : ℚ) * 100)

/-- Modelled from the spec: behavioral sub-score, fixed bonus
contributions for the demo-requested and free-trial-signup flags, summed
and capped at 100. -/
def behavioralScore (lead : CanonicalLead) : ℚ :=
  clamp01 ((if lead.demo_requested then 60 else 0) +
           (if lead.free_trial_signup then 50 else 0))

/-- Weight of the company-size factor, 20 percent, embedded from the
README weight table. -/
def wCompanySize : ℚ := 20/100

/-- Weight of the engagement factor, 25 percent. -/
def wEngagement : ℚ := 25/100

/-- Weight of the budget-fit factor, 15 percent. -/
def wBudgetFit : ℚ := 15/100

/-- Weight of the decision-authority factor, 15 percent. -/
def wDecisionAuthority : ℚ := 15/100

/-- Weight of the timeline factor, 10 percent. -/
def wTimeline : ℚ := 10/100

/-- Weight of the data-quality factor, 10 percent. -/
def wDataQuality : ℚ := 10/100

/-- Weight of the behavioral factor, 5 percent. -/
def wBehavioral : ℚ := 5/100

/-- Modelled from the spec: the seven-factor breakdown computed by the
Rule-Based Scorer for one canonical lead. -/
def scoreBreakdownOf (lead : CanonicalLead) : ScoreBreakdown :=
  { company_size := companySizeScore lead
    engagement := engagementScore lead
    budget_fit := budgetFitScore lead
    decision_authority := decisionAuthorityScore lead
    timeline := timelineScore lead
    data_quality := dataQualityScore lead
    behavioral := behavioralScore lead }

/-- Modelled from the spec: the rule score, the weighted sum of the
seven sub-scores under the fixed weight table, clamped to the score
range; the unrounded value is retained for aggregation. -/
def ruleScore (lead : CanonicalLead) : ℚ :=
  let b := scoreBreakdownOf lead
  clamp01 (wCompanySize * b.company_size + wEngagement * b.engagement +
    wBudgetFit * b.budget_fit + wDecisionAuthority * b.decision_authority +
    wTimeline * b.timeline + wDataQuality * b.data_quality +
    wBehavioral * b.behavioral)

/-- C7: the fixed weight table sums to exactly one, and each weight has
the documented value; the weights are definitional constants, never
reassigned. -/
theorem weights_sum_to_one :
    wCompanySize + wEngagement + wBudgetFit + wDecisionAuthority +
      wTimeline + wDataQuality + wBehavioral = 1 ∧
    wCompanySize = 20/100 ∧ wEngagement = 25/100 ∧ wBudgetFit = 15/100 ∧
    wDecisionAuthority = 15/100 ∧ wTimeline = 10/100 ∧
    wDataQuality = 10/100 ∧ wBehavioral = 5/100 := by
  refine ⟨?_, rfl, rfl, rfl, rfl, rfl, rfl, rfl⟩
  norm_num [wCompanySize, wEngagement, wBudgetFit, wDecisionAuthority,
    wTimeline, wDataQuality, wBehavioral]

/-- C6: for every canonical lead, each of the seven sub-scores lies in
the closed range zero to one hundred, and so does the rule score. -/
theorem breakdown_in_range (lead : CanonicalLead) :
    (0 ≤ (scoreBreakdownOf lead).company_size ∧ (scoreBreakdownOf lead).company_size ≤ 100) ∧
    (0 ≤ (scoreBreakdownOf lead).engagement ∧ (scoreBreakdownOf lead).engagement ≤ 100) ∧
    (0 ≤ (scoreBreakdownOf lead).budget_fit ∧ (scoreBreakdownOf lead).budget_fit ≤ 100) ∧
    (0 ≤ (scoreBreakdownOf lead).decision_authority ∧ (scoreBreakdownOf lead).decision_authority ≤ 100) ∧
    (0 ≤ (scoreBreakdownOf lead).timeline ∧ (scoreBreakdownOf lead).timeline ≤ 100) ∧
    (0 ≤ (scoreBreakdownOf lead).data_quality ∧ (scoreBreakdownOf lead).data_quality ≤ 100) ∧
    (0 ≤ (scoreBreakdownOf lead).behavioral ∧ (scoreBreakdownOf lead).behavioral ≤ 100) ∧
    (0 ≤ ruleScore lead ∧ ruleScore lead ≤ 100) := by
  refine ⟨⟨?_, ?_⟩, ⟨?_, ?_⟩, ⟨?_, ?_⟩, ⟨?_, ?_⟩, ⟨?_, ?_⟩, ⟨?_, ?_⟩, ⟨?_, ?_⟩, ⟨?_, ?_⟩⟩ <;>
    first
      | exact clamp01_nonneg _
      | exact clamp01_le _

/-- Modelled from the spec: the failure modes of one AI call listed in
section 4.3. -/
inductive AIFailure where
  | network
  | timeout
  | nonConforming
  | rateLimit
deriving DecidableEq, Repr

/-- Modelled from the spec: the raw shape of an AI service response
before validation; the adjustment is present only when it parsed as a
number, reasoning and actions may be absent. -/
structure RawAIResponse where
  adjustment : Option ℚ
  reasoning : Option String
  actions : Option (List String)
deriving DecidableEq, Repr

/-- Modelled from the spec: the bounded adjustment returned by the AI
Adjustment Client, with reasoning, actions and the degraded flag. -/
structure AIAdjustment where
  value : ℚ
  reasoning : String
  actions : List String
  degraded : Bool
deriving DecidableEq, Repr

/-- Modelled from the spec: the fallback AIAdjustment used on any
failure: adjustment zero, a generic notice, an empty action list, and
the degraded flag set. -/
def fallbackAdjustment : AIAdjustment :=
  { value := 0
    reasoning := "AI analysis unavailable; rule-based score used."
    actions := []
    degraded := true }

/-- Modelled from the spec: response validation in the AI Adjustment
Client.  A numeric adjustment outside the band from minus fifteen to
fifteen is clamped, never rejected; reasoning and actions default to
empty values; a response whose adjustment did not parse as a number is
non-conforming and resolves to the fallback. -/
def validateResponse (r : RawAIResponse) : AIAdjustment :=
  match r.adjustment with
  | some a =>
      { value := clampQ (-15) 15 a
        reasoning := r.reasoning.getD ""
        actions := r.actions.getD []
        degraded := false }
  | none => fallbackAdjustment

/-- Modelled from the spec: the AI Adjustment Client resolves every
failed call to the fallback and validates every successful response. -/
def adjustFor (res : Except AIFailure RawAIResponse) : AIAdjustment :=
  match res with
  | Except.ok r => validateResponse r
  | Except.error _ => fallbackAdjustment

/-- C5: every AIAdjustment the client produces, from a real response or
from the fallback, has its value in the band from minus fifteen to
fifteen, and a response with a numeric adjustment is clamped into the
band and never rejected (its result is not degraded). -/
theorem adjustment_bounded (res : Except AIFailure RawAIResponse) :
    (-15 ≤ (adjustFor res).value ∧ (adjustFor res).value ≤ 15) ∧
    (∀ r a, res = Except.ok r → r.adjustment = some a →
      (adjustFor res).value = clampQ (-15) 15 a ∧
      (adjustFor res).degraded = false) := by
  constructor
  · match res with
    | Except.ok r =>
        match hr : r.adjustment with
        | some a =>
            simp only [adjustFor, validateResponse, hr]
            exact ⟨le_clampQ _ _ _, clampQ_le _ _ _ (by norm_num)⟩
        | none =>
            simp only [adjustFor, validateResponse, hr]
            norm_num [fallbackAdjustment]
    | Except.error e =>
        simp only [adjustFor]
        norm_num [fallbackAdjustment]
  · intro r a hres ha
    subst hres
    simp [adjustFor, validateResponse, ha]

/-- Witness for C5: a response with adjustment forty is clamped to
fifteen and not degraded. -/
theorem adjustment_bounded_witness :
    (adjustFor (Except.ok ⟨some 40, none, none⟩)).value = clampQ (-15) 15 40 ∧
    (adjustFor (Except.ok (⟨some 40, none, none⟩ : RawAIResponse))).degraded = false :=
  (adjustment_bounded (Except.ok ⟨some 40, none, none⟩)).2 ⟨some 40, none, none⟩ 40 rfl rfl

/-- Modelled from the spec: the Score Aggregator.  The final score is
the rule score plus the adjustment, rounded to the nearest integer and
clamped to the score range. -/
def finalScore (rule adj : ℚ) : ℤ :=
  clampI 0 100 (roundQ (rule + adj))

/-- Published per-lead result, embedded from the LeadAnalysis interface
in api.ts; the final score is an integer per section 3 of the spec. -/
structure LeadAnalysis where
  customer_name : String
  score : ℤ
  rule_based_score : ℚ
  ai_adjustment : ℚ
  reason : String
  actions : List String
  score_breakdown : ScoreBreakdown
  lead_data : CanonicalLead
deriving DecidableEq, Repr

/-- Modelled from the spec: the per-lead pipeline after normalization:
rule-score the lead, obtain the AI adjustment through the client with
its fallback, aggregate, and publish.  The AI service is passed as an
oracle from leads to responses or failures. -/
def analyzeLead (ai : CanonicalLead → Except AIFailure RawAIResponse)
    (lead : CanonicalLead) : LeadAnalysis :=
  let bd := scoreBreakdownOf lead
  let rs := ruleScore lead
  let adj := adjustFor (ai lead)
  { customer_name := lead.contact_name
    score := finalScore rs adj.value
    rule_based_score := rs
    ai_adjustment := adj.value
    reason := adj.reasoning
    actions := adj.actions
    score_breakdown := bd
    lead_data := lead }

/-- Outcome of one batch, matching the AnalyzeResponse interface in
api.ts plus the skipped-row count of section 4.5 of the spec. -/
structure BatchResult where
  results : List LeadAnalysis
  total_leads : ℕ
  skipped : ℕ
deriving DecidableEq, Repr

/-- Modelled from the spec: the Batch Orchestrator.  Rows that fail
normalization are skipped and reported; every successfully normalized
row goes through the per-lead pipeline, in input order. -/
def processBatch (rows : List RawRow)
    (ai : CanonicalLead → Except AIFailure RawAIResponse) : BatchResult :=
  let leads := rows.filterMap normalize
  let results := leads.map (analyzeLead ai)
  { results := results
    total_leads := results.length
    skipped := rows.length - leads.length }

/-- C2: for every lead analysis the pipeline produces, the final score
is an integer in the range zero to one hundred and equals the clamp of
the rounded sum of the unrounded rule score and the AI adjustment. -/
theorem final_score_formula (ai : CanonicalLead → Except AIFailure RawAIResponse)
    (lead : CanonicalLead) :
    (analyzeLead ai lead).score =
      clampI 0 100 (roundQ ((analyzeLead ai lead).rule_based_score +
        (analyzeLead ai lead).ai_adjustment)) ∧
    0 ≤ (analyzeLead ai lead).score ∧ (analyzeLead ai lead).score ≤ 100 :=
  ⟨rfl, le_clampI _ _ _, clampI_le _ _ _ (by norm_num)⟩

theorem roundQ_nonneg (x : ℚ) (h : 0 ≤ x) : 0 ≤ roundQ x := by
  unfold roundQ
  exact Int.le_floor.mpr (by push_cast; linarith)

theorem roundQ_le_of_le (x : ℚ) (n : ℤ) (h : x ≤ n) : roundQ x ≤ n := by
  unfold roundQ
  have : ((⌊x + 1/2⌋ : ℤ) : ℚ) ≤ x + 1/2 := Int.floor_le _
  have hlt : ⌊x + 1/2⌋ < n + 1 := by
    apply Int.floor_lt.mpr
    push_cast
    linarith
  omega

/-- C3: every failure mode of the AI Adjustment Client resolves to the
fallback AIAdjustment, whose adjustment is zero with a fixed generic
notice, an empty action list and the degraded flag set; under the
fallback the final score equals the rounded rule score; and the number
of analyses a batch emits does not depend on the AI oracle, so no single
AI-call failure fails the batch. -/
theorem ai_failure_fallback :
    (∀ e : AIFailure, adjustFor (Except.error e) = fallbackAdjustment) ∧
    fallbackAdjustment.value = 0 ∧
    fallbackAdjustment.degraded = true ∧
    fallbackAdjustment.actions = [] ∧
    fallbackAdjustment.reasoning = "AI analysis unavailable; rule-based score used." ∧
    (∀ rule : ℚ, 0 ≤ rule → rule ≤ 100 →
      finalScore rule fallbackAdjustment.value = roundQ rule) ∧
    (∀ (rows : List RawRow) aiA aiB,
      (processBatch rows aiA).results.length = (processBatch rows aiB).results.length) := by
  refine ⟨fun _ => rfl, rfl, rfl, rfl, rfl, ?_, ?_⟩
  · intro rule h0 h100
    have hz : rule + fallbackAdjustment.value = rule := by
      simp [fallbackAdjustment]
    unfold finalScore
    rw [hz]
    exact clampI_eq_self 0 100 _ (roundQ_nonneg rule h0)
      (roundQ_le_of_le rule 100 (by exact_mod_cast h100))
  · intro rows aiA aiB
    simp [processBatch]

/-- Witness for C3 at a concrete failing call and the rule score
fifty. -/
theorem ai_failure_fallback_witness :
    adjustFor (Except.error AIFailure.timeout) = fallbackAdjustment ∧
    finalScore 50 fallbackAdjustment.value = roundQ 50 :=
  ⟨ai_failure_fallback.1 AIFailure.timeout,
   ai_failure_fallback.2.2.2.2.2.1 50 (by norm_num) (by norm_num)⟩

theorem length_filterMap_normalize (rows : List RawRow) :
    (rows.filterMap normalize).length =
      rows.countP (fun row => (normalize row).isSome) := by
  induction rows with
  | nil => rfl
  | cons a t ih =>
      by_cases h : (normalize a).isSome
      · obtain ⟨lead, hl⟩ := Option.isSome_iff_exists.mp h
        simp [List.filterMap_cons, List.countP_cons, hl, ih]
      · rw [Option.not_isSome_iff_eq_none] at h
        simp [List.filterMap_cons, List.countP_cons, h, ih]

/-- C4: a raw row fails normalization (and yields no canonical lead) if
and only if a structurally required identity field, company name or
contact email, is absent or empty; when both are present every other
cell coerces to a defaulted value and the row succeeds; skipped rows are
counted, excluded from the emitted analyses, and total leads plus
skipped rows account for the whole batch. -/
theorem normalization_skip_iff (r : RawRow) (rows : List RawRow)
    (ai : CanonicalLead → Except AIFailure RawAIResponse) :
    (normalize r = none ↔
      (requiredStr r.company_name = none ∨ requiredStr r.contact_email = none)) ∧
    (∀ name email, requiredStr r.company_name = some name →
      requiredStr r.contact_email = some email → (normalize r).isSome = true) ∧
    (processBatch rows ai).total_leads =
      rows.countP (fun row => (normalize row).isSome) ∧
    (processBatch rows ai).total_leads + (processBatch rows ai).skipped = rows.length ∧
    (processBatch rows ai).results.length = (processBatch rows ai).total_leads := by
  refine ⟨?_, ?_, ?_, ?_, ?_⟩
  · rcases h1 : requiredStr r.company_name with _ | name <;>
      rcases h2 : requiredStr r.contact_email with _ | email <;>
      simp [normalize, h1, h2]
  · intro name email h1 h2
    simp [normalize, h1, h2]
  · simp [processBatch, length_filterMap_normalize]
  · have hle := List.length_filterMap_le normalize rows
    simp only [processBatch, List.length_map]
    omega
  · simp [processBatch]

/-- Witness for C4: a row with only a company name is skipped, and a row
with both identity fields succeeds. -/
theorem normalization_skip_iff_witness :
    (normalize { company_name := some (Value.vstr "Acme") } = none ↔
      (requiredStr (some (Value.vstr "Acme")) = none ∨ requiredStr none = none)) ∧
    (normalize { company_name := some (Value.vstr "Acme"),
                 contact_email := some (Value.vstr "a@b.c") }).isSome = true :=
  ⟨(normalization_skip_iff { company_name := some (Value.vstr "Acme") } [] (fun _ => Except.error AIFailure.network)).1,
   (normalization_skip_iff
      { company_name := some (Value.vstr "Acme"), contact_email := some (Value.vstr "a@b.c") }
      [] (fun _ => Except.error AIFailure.network)).2.1 "Acme" "a@b.c" (by decide) (by decide)⟩

/-- Modelled from the spec: completion of the concurrent AI calls in an
arbitrary order.  Each completing index writes its own result into its
own slot of the shared assembly; the order list is the completion
order. -/
def runSchedule (f : ℕ → Option LeadAnalysis) :
    List ℕ → (ℕ → Option LeadAnalysis) → ℕ → Option LeadAnalysis
  | [], s => s
  | j :: rest, s => runSchedule f rest (fun k => if k = j then f j else s k)

/-- Modelled from the spec: the sequence the orchestrator assembles once
the given completion order has run, slot by slot in input order. -/
def assembleWithSchedule (leads : List CanonicalLead)
    (ai : CanonicalLead → Except AIFailure RawAIResponse)
    (order : List ℕ) : List (Option LeadAnalysis) :=
  (List.range leads.length).map
    (runSchedule (fun i => leads[i]?.map (analyzeLead ai)) order (fun _ => none))

theorem runSchedule_eq (f : ℕ → Option LeadAnalysis) (order : List ℕ)
    (s : ℕ → Option LeadAnalysis) (i : ℕ) :
    runSchedule f order s i = if i ∈ order then f i else s i := by
  induction order generalizing s with
  | nil => simp [runSchedule]
  | cons j rest ih =>
      rw [runSchedule, ih]
      by_cases hmem : i ∈ rest
      · simp [hmem]
      · by_cases hij : i = j
        · subst hij
          simp [hmem]
        · simp [hmem, hij]

/-- C8: the orchestrator emits exactly one analysis per successfully
normalized row, in original input order, and the assembled sequence is
the same for every completion order of the concurrent AI calls that
covers all leads. -/
theorem batch_order_preserved (rows : List RawRow)
    (ai : CanonicalLead → Except AIFailure RawAIResponse) (order : List ℕ) :
    (processBatch rows ai).results = (rows.filterMap normalize).map (analyzeLead ai) ∧
    ((∀ i, i < (rows.filterMap normalize).length → i ∈ order) →
      assembleWithSchedule (rows.filterMap normalize) ai order =
        (processBatch rows ai).results.map some) := by
  constructor
  · rfl
  · intro hcover
    set leads := rows.filterMap normalize with hleads
    have hres : (processBatch rows ai).results = leads.map (analyzeLead ai) := rfl
    rw [hres]
    apply List.ext_getElem?
    intro i
    by_cases hi : i < leads.length
    · have hrange : (List.range leads.length)[i]? = some i := List.getElem?_range hi
      have hget : leads[i]? = some leads[i] := List.getElem?_eq_getElem hi
      rw [assembleWithSchedule, List.getElem?_map, hrange, Option.map_some',
        runSchedule_eq, if_pos (hcover i hi), List.getElem?_map, List.getElem?_map,
        hget]
      rfl
    · have h1 : (List.range leads.length)[i]? = none :=
        List.getElem?_eq_none (by simpa using not_lt.mp hi)
      have h2 : leads[i]? = none := List.getElem?_eq_none (not_lt.mp hi)
      rw [assembleWithSchedule, List.getElem?_map, h1, List.getElem?_map,
        List.getElem?_map, h2]
      rfl

/-- Witness for C8: a two-row batch assembled under the reversed
completion order equals the in-order result sequence. -/
theorem batch_order_preserved_witness :
    assembleWithSchedule
        ([{ company_name := some (Value.vstr "A"), contact_email := some (Value.vstr "a@x.y") },
          { company_name := some (Value.vstr "B"), contact_email := some (Value.vstr "b@x.y") }].filterMap normalize)
        (fun _ => Except.error AIFailure.network) [1, 0] =
      (processBatch
        [{ company_name := some (Value.vstr "A"), contact_email := some (Value.vstr "a@x.y") },
         { company_name := some (Value.vstr "B"), contact_email := some (Value.vstr "b@x.y") }]
        (fun _ => Except.error AIFailure.network)).results.map some :=
  (batch_order_preserved
      [{ company_name := some (Value.vstr "A"), contact_email := some (Value.vstr "a@x.y") },
       { company_name := some (Value.vstr "B"), contact_email := some (Value.vstr "b@x.y") }]
      (fun _ => Except.error AIFailure.network) [1, 0]).2 (by decide)

/-- Batch response shape, embedded from the AnalyzeResponse interface
in api.ts. -/
structure AnalyzeResponse where
  results : List LeadAnalysis
  total_leads : ℕ
deriving DecidableEq, Repr

/-- State of the fetch call made by analyzeFile: the ok flag of the HTTP
response and the outcome of parsing its body as an AnalyzeResponse.  The
error side of the body carries the parse-failure message. -/
structure FetchResponse where
  ok : Bool
  body : Except String AnalyzeResponse

/-- Client analyze operation, embedded from analyzeFile in api.ts: when
the response is not ok, the thrown error from the try block is caught
and the generic message is thrown; when it is ok the parsed body is
returned, a body parse failure rejecting the call. -/
def analyzeFile (response : FetchResponse) : Except String AnalyzeResponse :=
  if response.ok then response.body
  else Except.error "An error occurred during analysis"

/-- C9: analyzeFile never yields a partial result set: for every fetch
outcome, either the response is ok and the full parsed body is returned
unchanged, or an error with a short message is the only outcome. -/
theorem analyze_no_truncation (response : FetchResponse) :
    (∃ b, analyzeFile response = Except.ok b ∧
      response.ok = true ∧ response.body = Except.ok b) ∨
    (∃ m, analyzeFile response = Except.error m) := by
  by_cases hok : response.ok
  · match hb : response.body with
    | Except.ok b =>
        left
        exact ⟨b, by simp [analyzeFile, hok, hb], hok, rfl⟩
    | Except.error m =>
        right
        exact ⟨m, by simp [analyzeFile, hok, hb]⟩
  · right
    exact ⟨"An error occurred during analysis",
      by rw [analyzeFile, if_neg hok]⟩

/-- Hot-bucket predicate of the score filter, embedded from
getFilteredResults in App.tsx. -/
def hotFilterPred (s : ℤ) : Bool := decide (80 ≤ s)

/-- Warm-bucket predicate of the score filter, embedded from
getFilteredResults in App.tsx. -/
def warmFilterPred (s : ℤ) : Bool := decide (60 ≤ s) && decide (s < 80)

/-- Cold-bucket predicate of the score filter, embedded from
getFilteredResults in App.tsx: everything below 60, with no separate
ice bucket. -/
def coldFilterPred (s : ℤ) : Bool := decide (s < 60)

/-- Hot-lead count of the statistics cards, embedded from ResultsTable.tsx. -/
def hotLeadsCount (results : List LeadAnalysis) : ℕ :=
  (results.filter (fun r => hotFilterPred r.score)).length

/-- Warm-lead count of the statistics cards, embedded from ResultsTable.tsx. -/
def warmLeadsCount (results : List LeadAnalysis) : ℕ :=
  (results.filter (fun r => warmFilterPred r.score)).length

/-- Cold-lead count of the statistics cards, embedded from ResultsTable.tsx. -/
def coldLeadsCount (results : List LeadAnalysis) : ℕ :=
  (results.filter (fun r => coldFilterPred r.score)).length

theorem bucketCount_step (s : ℤ) :
    ((if hotFilterPred s then 1 else 0) + (if warmFilterPred s then 1 else 0) +
      (if coldFilterPred s then 1 else 0) : ℕ) = 1 := by
  simp only [hotFilterPred, warmFilterPred, coldFilterPred, Bool.and_eq_true,
    decide_eq_true_eq]
  split_ifs <;> omega

/-- C10: the Hot, Warm and Cold counts of the frontend partition every
result list: the three counts sum to the list length, every score
belongs to exactly one bucket, and the Cold bucket absorbs every score
the tier classifier labels Ice Cold. -/
theorem buckets_partition (results : List LeadAnalysis) :
    hotLeadsCount results + warmLeadsCount results + coldLeadsCount results =
      results.length ∧
    (∀ s : ℤ, (hotFilterPred s || warmFilterPred s || coldFilterPred s) = true ∧
      ¬(hotFilterPred s = true ∧ warmFilterPred s = true) ∧
      ¬(hotFilterPred s = true ∧ coldFilterPred s = true) ∧
      ¬(warmFilterPred s = true ∧ coldFilterPred s = true)) ∧
    (∀ s : ℤ, getScoreLabel (s : ℚ) = "Ice Cold" → coldFilterPred s = true) := by
  refine ⟨?_, ?_, ?_⟩
  · induction results with
    | nil => rfl
    | cons a t ih =>
        have hstep := bucketCount_step a.score
        simp only [hotLeadsCount, warmLeadsCount, coldLeadsCount,
          ← List.countP_eq_length_filter, List.countP_cons, List.length_cons] at ih ⊢
        omega
  · intro s
    refine ⟨?_, ?_, ?_, ?_⟩ <;>
      simp [hotFilterPred, warmFilterPred, coldFilterPred] <;> omega
  · intro s hlabel
    unfold getScoreLabel at hlabel
    split_ifs at hlabel with h80 h60 h40
    · simp at hlabel
    · simp at hlabel
    · simp at hlabel
    · have : (s : ℚ) < 40 := not_le.mp h40
      have hs : s < 40 := by exact_mod_cast this
      simp only [coldFilterPred, decide_eq_true_eq]
      omega

/-- Witness for C10: the score minus five is labelled Ice Cold and falls
in the Cold filter bucket. -/
theorem buckets_partition_witness : coldFilterPred (-5) = true :=
  (buckets_partition []).2.2 (-5) (by norm_num [getScoreLabel])

end RevenueRadar
